import Mathlib

/-!
Shallow embedding of the diabetes-prediction pipeline of `src/app.py`.

Modelling conventions: Python ints are `Int`, Python floats are `ℚ`,
`None` is `Option.none`, and a Python exception raised by a model call is
the error branch of `Except String`.  The classifier loaded from disk is
opaque to the pipeline, so a model handle is a record of its two
capabilities: a `predict` call that may raise, and an optional
`predict_proba` attribute (absent when `hasattr` is false) whose call may
also raise.  `datetime.now().strftime(..)` is modelled by passing the
formatted timestamp as an explicit argument, and Python f-string rendering
of a float (the BMI field of the report) by an explicit rendering function.
-/

namespace DiabetesApp

/-- The 1x5 feature row `np.array([[glucose, blood_pressure, insulin, bmi, age]], dtype=float)`
built at src/app.py line 245 (all entries cast to float, hence `ℚ`). -/
structure Row where
  glucose : ℚ
  blood_pressure : ℚ
  insulin : ℚ
  bmi : ℚ
  age : ℚ
deriving Repr, DecidableEq

/-- A loaded classifier handle, abstracted by its capabilities:
`predict` always exists and may raise; `predict_proba` exists only when
`hasattr(model, "predict_proba")` holds (`none` models a missing
attribute), and calling it may raise.  The `ℚ` returned by a present,
succeeding `predict_proba` call models `float(model.predict_proba(row)[0][1])`,
the probability mass on the positive class. -/
structure Model where
  predict : Row → Except String Int
  predict_proba : Option (Row → Except String ℚ)

/-- src/app.py lines 145-153, `predict_one`: run `predict` (its exception
propagates), then try `predict_proba` if the attribute exists, mapping any
exception from the probability call to `None`. -/
def predict_one (model : Model) (row_1x5 : Row) : Except String (Int × Option ℚ) := do
  let pred ← model.predict row_1x5
  let proba : Option ℚ :=
    match model.predict_proba with
    | none => none
    | some f =>
      match f row_1x5 with
      | Except.ok p => some p
      | Except.error _ => none
  pure (pred, proba)

/-- src/app.py lines 155-159, `risk_label`: the risk bucket and its display
color as a step function of the optional probability. -/
def risk_label (prob : Option ℚ) : String × String :=
  match prob with
  | none => ("Unknown", "#bdc3c7")
  | some p =>
    if p < 0.34 then ("Low", "#2ecc71")
    else if p < 0.67 then ("Medium", "#f1c40f")
    else ("High", "#e74c3c")

/-- The newline joining the report lines (src/app.py line 189). -/
def newline : String := "\n"

/-- src/app.py lines 163-187: the `lines` list built by
`generate_text_report`.  The numeric fields arrive here already rendered to
text (Python f-string interpolation of the values), `result`, `risk` and
`prob` are the strings the caller passes, and `now` is the formatted
`datetime.now()` timestamp.  `name or 'N/A'` is the empty-string fallback. -/
def reportLines (name glucose bp insulin bmi age result risk prob now : String) :
    List String :=
  [ "===== Diabetes Prediction Report =====",
    "Name: " ++ (if name = "" then "N/A" else name),
    "Glucose: " ++ glucose,
    "Blood Pressure: " ++ bp,
    "Insulin: " ++ insulin,
    "BMI: " ++ bmi,
    "Age: " ++ age,
    "",
    "Prediction: " ++ result,
    "Risk Level: " ++ risk,
    "Probability: " ++ prob,
    "" ]
  ++ (if result = "Diabetic" then
        [ "Consult with doctor",
          "Contact diabetes specialist: https://www.google.com/search?q=diabetes+doctor+near+me" ]
      else
        [ "Tip: Maintain a balanced diet and regular exercise routine." ])
  ++ [ "",
    "⚠️ Educational use only — not medical advice.",
    "",
    "──────────────────────────────────────",
    "Prepared by: Tauheed Akhtar (UON)",
    "Project: Diabetes Prediction App",
    "Generated on: " ++ now ]

/-- src/app.py lines 161-190, `generate_text_report`: join the lines with
newlines and encode the text as UTF-8 bytes. -/
def generate_text_report (name glucose bp insulin bmi age result risk prob now : String) :
    ByteArray :=
  (String.intercalate newline
    (reportLines name glucose bp insulin bmi age result risk prob now)).toUTF8

/-- Models Python `f"{proba*100:.2f}%"` (src/app.py line 261): the
probability scaled to percent and rendered with two decimal digits,
rounding to the nearest hundredth. -/
def pct_format (p : ℚ) : String :=
  let n : Int := round (p * 10000)
  let sign := if n < 0 then "-" else ""
  let m : Nat := n.natAbs
  let frac : Nat := m % 100
  let fracDigits := if frac < 10 then "0" ++ toString frac else toString frac
  sign ++ toString (m / 100) ++ "." ++ fracDigits ++ "%"

/-- src/app.py line 261: `"N/A" if proba is None else f"{proba*100:.2f}%"`. -/
def pct_text (proba : Option ℚ) : String :=
  match proba with
  | none => "N/A"
  | some p => pct_format p

/-- src/app.py lines 248-249: the `healthy` conjunction of five inclusive
range checks over the raw inputs. -/
def healthy (glucose blood_pressure insulin : Int) (bmi : ℚ) (age : Int) : Bool :=
  decide ((70 ≤ glucose ∧ glucose ≤ 120) ∧ (60 ≤ blood_pressure ∧ blood_pressure ≤ 80) ∧
    (15 ≤ insulin ∧ insulin ≤ 276) ∧ ((18.5 : ℚ) ≤ bmi ∧ bmi ≤ 24.9) ∧ (18 ≤ age ∧ age ≤ 60))

/-- Python `name or 'Patient'` in the banner markup (src/app.py lines 252-257). -/
def displayName (name : String) : String := if name = "" then "Patient" else name

/-- Everything the submit handler shows or offers for one prediction run. -/
structure RunOutput where
  banner : String
  label : String
  rcolor : String
  pct_text : String
  result : String
  txt_bytes : ByteArray
  file_name : String

/-- src/app.py lines 248-309: the body of the tab-1 submit handler after
`predict_one` has returned `(pred, proba)`.  `showFloat` renders the float
BMI for the report f-string; integer fields render with `toString` as in
Python.  The `healthy` override zeroes `pred` before `result` is derived;
the risk bucket and percent text come from `proba` alone. -/
def runPipeline (showFloat : ℚ → String) (name : String)
    (glucose blood_pressure insulin : Int) (bmi : ℚ) (age : Int)
    (pred : Int) (proba : Option ℚ) (now : String) : RunOutput :=
  let h := healthy glucose blood_pressure insulin bmi age
  let banner :=
    if h then "✅ " ++ displayName name ++ " has not diabetes"
    else if pred = 1 then "⚠️ " ++ displayName name ++ " has diabetes"
    else "✅ " ++ displayName name ++ " has not diabetes"
  let pred := if h then 0 else pred
  let lab := risk_label proba
  let pt := pct_text proba
  let result := if pred = 1 then "Diabetic" else "Not Diabetic"
  let txt := generate_text_report name (toString glucose) (toString blood_pressure)
    (toString insulin) (showFloat bmi) (toString age) result lab.1 pt now
  { banner := banner, label := lab.1, rcolor := lab.2, pct_text := pt, result := result,
    txt_bytes := txt,
    file_name := (if name = "" then "patient" else name) ++ "_report.txt" }

/-- src/app.py line 245: the feature row fed to the model, every input cast
to float. -/
def mkRow (glucose blood_pressure insulin : Int) (bmi : ℚ) (age : Int) : Row :=
  { glucose := (glucose : ℚ), blood_pressure := (blood_pressure : ℚ),
    insulin := (insulin : ℚ), bmi := bmi, age := (age : ℚ) }

/-- src/app.py lines 244-309: the whole submit handler.  `predict_one` runs
first (line 246); an exception it raises aborts the handler before any
banner, risk info or report bytes exist, which the `Except` bind models. -/
def runSubmit (showFloat : ℚ → String) (model : Model) (name : String)
    (glucose blood_pressure insulin : Int) (bmi : ℚ) (age : Int)
    (now : String) : Except String RunOutput := do
  let row := mkRow glucose blood_pressure insulin bmi age
  let scored ← predict_one model row
  pure (runPipeline showFloat name glucose blood_pressure insulin bmi age
    scored.1 scored.2 now)

/-- src/app.py line 130: the `LIMITS` table entries (Glucose). -/
def LIMITS_Glucose : Int × Int := (0, 199)

/-- src/app.py line 130: the `LIMITS` table entries (BloodPressure). -/
def LIMITS_BloodPressure : Int × Int := (0, 122)

/-- src/app.py line 130: the `LIMITS` table entries (Insulin). -/
def LIMITS_Insulin : Int × Int := (0, 846)

/-- src/app.py line 130: the `LIMITS` table entries (BMI). -/
def LIMITS_BMI : ℚ × ℚ := (0.0, 67.1)

/-- src/app.py line 130: the `LIMITS` table entries (Age). -/
def LIMITS_Age : Int × Int := (21, 81)

/-- src/app.py line 205: the sidebar age slider bounds,
`st.sidebar.slider("Age (years)", LIMITS["Age"][0], 120, ...)`. -/
def age_slider_bounds : Int × Int := (LIMITS_Age.1, 120)

/-- src/app.py line 240: the form age number-input bounds,
`st.number_input("Age (years)", LIMITS["Age"][0], 120, ...)`. -/
def age_number_input_bounds : Int × Int := (LIMITS_Age.1, 120)

/-- The report structure exactly as §6 of the specification lays it out:
header, name with N/A fallback, the five fields, a blank line, prediction,
risk level, probability, a blank line, the conditional advice block, a
blank line, the disclaimer, a blank line, the separator, author, project,
timestamp. -/
def specAdviceBlock (prediction : String) : List String :=
  if prediction = "Diabetic" then
    [ "Consult with doctor",
      "Contact diabetes specialist: https://www.google.com/search?q=diabetes+doctor+near+me" ]
  else
    [ "Tip: Maintain a balanced diet and regular exercise routine." ]

/-- The full line list of the specification report layout (§6), with the
advice block of `specAdviceBlock` spliced in after the probability line. -/
def specReportLines (name glucose bp insulin bmi age result risk prob now : String) :
    List String :=
  [ "===== Diabetes Prediction Report =====",
    "Name: " ++ (if name = "" then "N/A" else name),
    "Glucose: " ++ glucose,
    "Blood Pressure: " ++ bp,
    "Insulin: " ++ insulin,
    "BMI: " ++ bmi,
    "Age: " ++ age,
    "",
    "Prediction: " ++ result,
    "Risk Level: " ++ risk,
    "Probability: " ++ prob,
    "" ]
  ++ specAdviceBlock result
  ++ [ "",
    "⚠️ Educational use only — not medical advice.",
    "",
    "──────────────────────────────────────",
    "Prepared by: Tauheed Akhtar (UON)",
    "Project: Diabetes Prediction App",
    "Generated on: " ++ now ]

/-- A stand-in for Python float rendering, used to instantiate the
`showFloat` parameter at concrete inputs. -/
def showFloatStub (q : ℚ) : String := toString q

/-- The empty patient name, as submitted by default. -/
def emptyName : String := ""

/-- A fixed clock reading for concrete runs. -/
def tstamp : String := "2026-10-12 00:00"

/-- A model whose probability capability is missing and whose `predict`
always returns the positive class. -/
def stubModel : Model :=
  { predict := fun _ => Except.ok 1, predict_proba := none }

/-- The message of a failing `predict` call. -/
def boomMsg : String := "predict failed"

/-- A model whose `predict` call itself raises. -/
def failingModel : Model :=
  { predict := fun _ => Except.error boomMsg, predict_proba := none }

/-- The default feature row of the app (src/app.py line 131). -/
def rowDefault : Row :=
  { glucose := 117, blood_pressure := 72, insulin := 30, bmi := 32, age := 29 }

/-- C1: whenever the five raw inputs satisfy the `healthy` conjunction, the
pipeline's final label is "Not Diabetic", for every model prediction `pred`
and every probability `proba`: the model output cannot affect the final
label on healthy inputs. -/
theorem healthy_forces_not_diabetic (showFloat : ℚ → String) (name : String)
    (glucose blood_pressure insulin : Int) (bmi : ℚ) (age : Int)
    (pred : Int) (proba : Option ℚ) (now : String)
    (h : healthy glucose blood_pressure insulin bmi age = true) :
    (runPipeline showFloat name glucose blood_pressure insulin bmi age pred proba now).result
      = "Not Diabetic" := by
  simp [runPipeline, h]

/-- Witness for C1: the healthy input of scenario A with a model stubbed to
return the positive class and a high probability still yields "Not Diabetic". -/
theorem healthy_forces_not_diabetic_witness :
    (runPipeline showFloatStub emptyName 100 70 100 22 30 1 (some 0.9) tstamp).result
      = "Not Diabetic" :=
  healthy_forces_not_diabetic showFloatStub emptyName 100 70 100 22 30 1 (some 0.9) tstamp
    (by simp only [healthy, decide_eq_true_eq]; norm_num)

/-- C2: `risk_label` is exactly the step function: Unknown on an absent
probability, Low below 0.34, Medium on [0.34, 0.67), High at and above
0.67, with the stated boundary values, and the bucket is Unknown iff the
probability is absent. -/
theorem risk_label_step :
    (risk_label none).1 = "Unknown"
    ∧ (∀ p : ℚ, p < 0.34 → (risk_label (some p)).1 = "Low")
    ∧ (∀ p : ℚ, 0.34 ≤ p → p < 0.67 → (risk_label (some p)).1 = "Medium")
    ∧ (∀ p : ℚ, 0.67 ≤ p → (risk_label (some p)).1 = "High")
    ∧ (risk_label (some 0.34)).1 = "Medium"
    ∧ (risk_label (some 0.67)).1 = "High"
    ∧ (risk_label (some 0.339999)).1 = "Low"
    ∧ (∀ o : Option ℚ, (risk_label o).1 = "Unknown" ↔ o = none) := by
  refine ⟨rfl, ?_, ?_, ?_,
    by simp only [risk_label]; rw [if_neg (by norm_num), if_pos (by norm_num)],
    by simp only [risk_label]; rw [if_neg (by norm_num), if_neg (by norm_num)],
    by simp only [risk_label]; rw [if_pos (by norm_num)], ?_⟩
  · intro p hp
    simp [risk_label, hp]
  · intro p h1 h2
    simp [risk_label, not_lt.mpr h1, h2]
  · intro p h
    have h1 : ¬ p < 0.34 := not_lt.mpr (le_trans (by norm_num) h)
    have h2 : ¬ p < 0.67 := not_lt.mpr h
    simp [risk_label, h1, h2]
  · intro o
    match o with
    | none => simp [risk_label]
    | some p =>
      simp only [risk_label]
      constructor
      · intro hEq
        by_cases h1 : p < 0.34
        · rw [if_pos h1] at hEq
          exact absurd hEq (by decide)
        · by_cases h2 : p < 0.67
          · rw [if_neg h1, if_pos h2] at hEq
            exact absurd hEq (by decide)
          · rw [if_neg h1, if_neg h2] at hEq
            exact absurd hEq (by decide)
      · intro hEq
        exact absurd hEq (by simp)

/-- Witness for C2: the general Medium case applied at probability 1/2. -/
theorem risk_label_step_witness :
    (risk_label (some 0.5)).1 = "Medium" :=
  risk_label_step.2.2.1 0.5 (by norm_num) (by norm_num)

/-- C3: the override is one-directional: a final label of "Diabetic"
implies the model's raw prediction was 1, and a raw prediction of 0 can
never be turned into "Diabetic". -/
theorem override_one_directional :
    (∀ (showFloat : ℚ → String) (name : String) (glucose blood_pressure insulin : Int)
        (bmi : ℚ) (age : Int) (pred : Int) (proba : Option ℚ) (now : String),
      (runPipeline showFloat name glucose blood_pressure insulin bmi age pred proba now).result
        = "Diabetic" → pred = 1)
    ∧ (∀ (showFloat : ℚ → String) (name : String) (glucose blood_pressure insulin : Int)
        (bmi : ℚ) (age : Int) (proba : Option ℚ) (now : String),
      (runPipeline showFloat name glucose blood_pressure insulin bmi age 0 proba now).result
        ≠ "Diabetic") := by
  constructor
  · intro sF name g b i m a pred proba now hres
    by_cases hh : healthy g b i m a = true
    · have hnd : (runPipeline sF name g b i m a pred proba now).result = "Not Diabetic" := by
        simp [runPipeline, hh]
      exact absurd (hnd.symm.trans hres) (by decide)
    · simp only [Bool.not_eq_true] at hh
      by_cases hv : pred = 1
      · exact hv
      · have hnd : (runPipeline sF name g b i m a pred proba now).result = "Not Diabetic" := by
          simp [runPipeline, hh, hv]
        exact absurd (hnd.symm.trans hres) (by decide)
  · intro sF name g b i m a proba now hres
    by_cases hh : healthy g b i m a = true
    · have hnd : (runPipeline sF name g b i m a 0 proba now).result = "Not Diabetic" := by
        simp [runPipeline, hh]
      exact absurd (hnd.symm.trans hres) (by decide)
    · simp only [Bool.not_eq_true] at hh
      have hnd : (runPipeline sF name g b i m a 0 proba now).result = "Not Diabetic" := by
        simp [runPipeline, hh]
      exact absurd (hnd.symm.trans hres) (by decide)

/-- Witness for C3: scenario B's unhealthy inputs with model prediction 1
do yield "Diabetic", and the theorem instantiated there gives 1 = 1;
its second half instantiated at the same inputs with prediction 0 shows
that run is not labelled "Diabetic". -/
theorem override_one_directional_witness :
    (runPipeline showFloatStub emptyName 180 90 300 35 45 1 (some 0.8) tstamp).result
        = "Diabetic"
    ∧ (1 : Int) = 1
    ∧ (runPipeline showFloatStub emptyName 180 90 300 35 45 0 (some 0.8) tstamp).result
        ≠ "Diabetic" := by
  have hh : healthy 180 90 300 35 45 = false := by
    simp only [healthy, decide_eq_false_iff_not]
    norm_num
  have hres :
      (runPipeline showFloatStub emptyName 180 90 300 35 45 1 (some 0.8) tstamp).result
        = "Diabetic" := by
    simp [runPipeline, hh]
  exact ⟨hres,
    override_one_directional.1 showFloatStub emptyName 180 90 300 35 45 1 (some 0.8) tstamp
      hres,
    override_one_directional.2 showFloatStub emptyName 180 90 300 35 45 (some 0.8) tstamp⟩

/-- C9: the limits table declares the Age domain as [21, 81], but both the
sidebar age slider and the form age number input use the table's lower
bound 21 with a hard-coded upper bound of 120 instead of the table's 81. -/
theorem age_bounds_inconsistent :
    LIMITS_Age = (21, 81)
    ∧ age_slider_bounds = (LIMITS_Age.1, 120)
    ∧ age_number_input_bounds = (LIMITS_Age.1, 120)
    ∧ age_slider_bounds = (21, 120)
    ∧ age_number_input_bounds = (21, 120)
    ∧ age_slider_bounds.2 ≠ LIMITS_Age.2 := by
  refine ⟨rfl, rfl, rfl, rfl, rfl, by decide⟩

/-- C10: `risk_label` is total over all rational probabilities and performs
no [0,1] range validation: every probability below 0.34 (negative values
included) maps to Low, everything at or above 0.67 (values above 1
included) maps to High, every present probability gets one of the three
buckets, and in particular -5 maps to Low and 2 maps to High. -/
theorem risk_label_total :
    (∀ p : ℚ, p < 0.34 → (risk_label (some p)).1 = "Low")
    ∧ (∀ p : ℚ, 0.67 ≤ p → (risk_label (some p)).1 = "High")
    ∧ (∀ p : ℚ, (risk_label (some p)).1 = "Low" ∨ (risk_label (some p)).1 = "Medium"
        ∨ (risk_label (some p)).1 = "High")
    ∧ (risk_label (some (-5))).1 = "Low"
    ∧ (risk_label (some 2)).1 = "High" := by
  refine ⟨?_, ?_, ?_,
    by simp only [risk_label]; rw [if_pos (by norm_num)],
    by simp only [risk_label]; rw [if_neg (by norm_num), if_neg (by norm_num)]⟩
  · intro p hp
    simp [risk_label, hp]
  · intro p h
    have h1 : ¬ p < 0.34 := not_lt.mpr (le_trans (by norm_num) h)
    have h2 : ¬ p < 0.67 := not_lt.mpr h
    simp [risk_label, h1, h2]
  · intro p
    by_cases h1 : p < 0.34
    · exact Or.inl (by simp [risk_label, h1])
    · by_cases h2 : p < 0.67
      · exact Or.inr (Or.inl (by simp [risk_label, h1, h2]))
      · exact Or.inr (Or.inr (by simp [risk_label, h1, h2]))

/-- Witness for C10: the Low branch applied at the out-of-range
probability -1. -/
theorem risk_label_total_witness :
    (risk_label (some (-1))).1 = "Low" :=
  risk_label_total.1 (-1) (by norm_num)

/-- C4: when the model lacks the `predict_proba` attribute, or that call
raises, `predict_one` (once `predict` has returned) succeeds with an
absent probability rather than propagating an error; an absent probability
gives the "Unknown" bucket and "N/A" percent text, and the report then
contains the lines "Risk Level: Unknown" and "Probability: N/A". -/
theorem probability_absent_degrades (model : Model) (row : Row) (pred : Int)
    (hpred : model.predict row = Except.ok pred)
    (hproba : model.predict_proba = none
      ∨ ∃ f e, model.predict_proba = some f ∧ f row = Except.error e) :
    predict_one model row = Except.ok (pred, none)
    ∧ (risk_label none).1 = "Unknown"
    ∧ pct_text none = "N/A"
    ∧ (∀ name glucose bp insulin bmi age result now : String,
        "Risk Level: Unknown"
          ∈ reportLines name glucose bp insulin bmi age result (risk_label none).1
              (pct_text none) now
        ∧ "Probability: N/A"
          ∈ reportLines name glucose bp insulin bmi age result (risk_label none).1
              (pct_text none) now) := by
  refine ⟨?_, rfl, rfl, ?_⟩
  · rcases hproba with h | ⟨f, e, hf, he⟩
    · simp [predict_one, hpred, h]
    · simp [predict_one, hpred, hf, he]
  · intro name glucose bp insulin bmi age result now
    constructor
    · have hs : ("Risk Level: Unknown" : String) = "Risk Level: " ++ (risk_label none).1 := rfl
      rw [hs]
      simp [reportLines]
    · have hs : ("Probability: N/A" : String) = "Probability: " ++ pct_text none := rfl
      rw [hs]
      simp [reportLines]

/-- Witness for C4: a model with no probability capability still yields a
successful prediction with an absent probability. -/
theorem probability_absent_degrades_witness :
    predict_one stubModel rowDefault = Except.ok (1, none) :=
  (probability_absent_degrades stubModel rowDefault 1 rfl (Or.inl rfl)).1

/-- C5: for every argument tuple, `generate_text_report` returns exactly
the UTF-8 encoding of the specification's report layout: header, name with
N/A fallback, the five fields in order, blank line, prediction, risk
level, probability, blank line, the conditional advice block (two fixed
lines when the result is "Diabetic", one fixed tip line otherwise), blank
line, disclaimer, blank line, separator, author, project, timestamp. -/
theorem report_matches_spec_structure
    (name glucose bp insulin bmi age result risk prob now : String) :
    generate_text_report name glucose bp insulin bmi age result risk prob now
      = (String.intercalate newline
          (specReportLines name glucose bp insulin bmi age result risk prob now)).toUTF8 := by
  unfold generate_text_report reportLines specReportLines specAdviceBlock
  by_cases hr : result = "Diabetic"
  · simp [hr]
  · simp [hr]

/-- C6: the displayed risk bucket depends only on the probability: two runs
sharing a probability get the same bucket whatever their other inputs or
the model's predicted label; concretely, a healthy run with probability
0.8 displays bucket "High" next to final label "Not Diabetic", and with
0.5 displays "Medium" next to "Not Diabetic". -/
theorem risk_bucket_independent_of_override :
    (∀ (sF₁ sF₂ : ℚ → String) (n₁ n₂ : String) (g₁ g₂ b₁ b₂ i₁ i₂ : Int) (m₁ m₂ : ℚ)
        (a₁ a₂ : Int) (p₁ p₂ : Int) (proba : Option ℚ) (t₁ t₂ : String),
      (runPipeline sF₁ n₁ g₁ b₁ i₁ m₁ a₁ p₁ proba t₁).label
        = (runPipeline sF₂ n₂ g₂ b₂ i₂ m₂ a₂ p₂ proba t₂).label)
    ∧ ((runPipeline showFloatStub emptyName 100 70 100 22 30 1 (some 0.8) tstamp).label
          = "High"
      ∧ (runPipeline showFloatStub emptyName 100 70 100 22 30 1 (some 0.8) tstamp).result
          = "Not Diabetic")
    ∧ ((runPipeline showFloatStub emptyName 100 70 100 22 30 1 (some 0.5) tstamp).label
          = "Medium"
      ∧ (runPipeline showFloatStub emptyName 100 70 100 22 30 1 (some 0.5) tstamp).result
          = "Not Diabetic") := by
  have hh : healthy 100 70 100 22 30 = true := by
    simp only [healthy, decide_eq_true_eq]
    norm_num
  refine ⟨?_, ⟨?_, by simp [runPipeline, hh]⟩, ⟨?_, by simp [runPipeline, hh]⟩⟩
  · intro sF₁ sF₂ n₁ n₂ g₁ g₂ b₁ b₂ i₁ i₂ m₁ m₂ a₁ a₂ p₁ p₂ proba t₁ t₂
    rfl
  · show (risk_label (some (0.8 : ℚ))).1 = "High"
    simp only [risk_label]
    rw [if_neg (by norm_num), if_neg (by norm_num)]
  · show (risk_label (some (0.5 : ℚ))).1 = "Medium"
    simp only [risk_label]
    rw [if_neg (by norm_num), if_pos (by norm_num)]

/-- C7: when the model's `predict` call itself raises, the submit handler
surfaces that error: `runSubmit` returns exactly the error, and no run
output (banner, bucket or report bytes) is ever produced. -/
theorem predict_failure_propagates (showFloat : ℚ → String) (model : Model)
    (name : String) (glucose blood_pressure insulin : Int) (bmi : ℚ) (age : Int)
    (now : String) (e : String)
    (hfail : model.predict (mkRow glucose blood_pressure insulin bmi age)
      = Except.error e) :
    runSubmit showFloat model name glucose blood_pressure insulin bmi age now
        = Except.error e
    ∧ ∀ out : RunOutput,
        runSubmit showFloat model name glucose blood_pressure insulin bmi age now
          ≠ Except.ok out := by
  have h1 : runSubmit showFloat model name glucose blood_pressure insulin bmi age now
      = Except.error e := by
    simp [runSubmit, predict_one, hfail]
  refine ⟨h1, fun out hout => ?_⟩
  rw [h1] at hout
  cases hout

/-- Witness for C7: a model whose `predict` raises makes the whole submit
handler return that very error. -/
theorem predict_failure_propagates_witness :
    runSubmit showFloatStub failingModel emptyName 1 1 1 1 1 tstamp
      = Except.error boomMsg :=
  (predict_failure_propagates showFloatStub failingModel emptyName 1 1 1 1 1 tstamp
    boomMsg rfl).1

/-- C8: the report is deterministic given a fixed clock: identical
arguments with the same timestamp give byte-for-byte identical output, and
for any two clock readings all lines before the final "Generated on" line
coincide — the timestamp is the report's only non-input dependence. -/
theorem report_deterministic
    (name glucose bp insulin bmi age result risk prob t u : String) :
    (t = u →
      generate_text_report name glucose bp insulin bmi age result risk prob t
        = generate_text_report name glucose bp insulin bmi age result risk prob u)
    ∧ (reportLines name glucose bp insulin bmi age result risk prob t).dropLast
        = (reportLines name glucose bp insulin bmi age result risk prob u).dropLast := by
  constructor
  · intro h
    rw [h]
  · by_cases hr : result = "Diabetic" <;> simp [reportLines, hr]

/-- Witness for C8: two calls with identical arguments and the same
timestamp produce the same bytes. -/
theorem report_deterministic_witness :
    generate_text_report emptyName emptyName emptyName emptyName emptyName emptyName
        emptyName emptyName emptyName tstamp
      = generate_text_report emptyName emptyName emptyName emptyName emptyName emptyName
        emptyName emptyName emptyName tstamp :=
  (report_deterministic emptyName emptyName emptyName emptyName emptyName emptyName
    emptyName emptyName emptyName tstamp tstamp).1 rfl

end DiabetesApp
